import Mathlib

/-!
Verification development for the private-llm local proxy (Go sources).

Each section below is a shallow embedding of one subsystem of the
`cli` package, translated from the Go source:

* `Token`    — the streaming token parser (`tokenParser` and the four
  per-API-style line parsers in gcpclient.go) together with the global
  cumulative counters `totalInputTokens` / `totalOutputTokens`.
* `Gate`     — the resettable channel gate of proxy.go (`readyCh`,
  `openGate`, `closeGate`, `waitReady`).
* `Handler`  — the control-relevant step sequence of `proxyHandler`
  (proxy.go) and the `InfraOps.EnsureSetup` signal (gcpclient.go).
* `Infra`    — the five ops-loop actions `doSetup`, `doStopVM`,
  `doStartVM`, `doRestartVM`, `doResetVM` (gcpclient.go), with the
  fallible remote calls abstracted as an oracle environment.
* `Rotation` — `rotateCerts` (rotation engine) with abstract crypto.
* `Certs`    — the TLS `VerifyPeerCertificate` hook of certs.go.
* `Headers`  — the upstream header construction of `proxyHandler`.
* `Cfg`      — `loadConfig` / `applyDefaults` of the configuration file.

Machine integers (Go int64) are modelled as `Int`; byte strings and
hashes are abstract (`Nat` identifiers with an arbitrary hash function
passed as a parameter); JSON decoding is modelled by feeding the parser
the already-decoded object, with a dedicated constructor for lines whose
decoding fails (Go `json.Unmarshal` error), so that quantifying over the
embedded line type covers every concrete input line.
-/

namespace Token

/-- State of one `tokenParser` (gcpclient.go) together with the global
cumulative counters.  Fields `input`, `output`, `streamed`, `lastEvent`
mirror the struct fields of `tokenParser`; `totalInput` / `totalOutput`
mirror the package-level atomics `totalInputTokens` / `totalOutputTokens`.
The timing fields (`upstreamStartNano`, `firstOutputNano`,
`lastOutputNano`) only feed the rate computations and never influence any
counter, so they are omitted here. -/
structure St where
  input : Int := 0
  output : Int := 0
  streamed : Int := 0
  lastEvent : String := ""
  totalInput : Int := 0
  totalOutput : Int := 0
deriving DecidableEq

/-- `(*tokenParser).countOutput` (gcpclient.go): increments the
per-request output counter, the streaming-only counter and the global
cumulative output counter (timestamp bookkeeping omitted, see `St`). -/
def countOutput (s : St) : St :=
  { s with
    output := s.output + 1
    streamed := s.streamed + 1
    totalOutput := s.totalOutput + 1 }

/-- Decoded form of one line fed to `parseOllamaLine`.  `malformed`
covers blank lines and lines rejected by `json.Unmarshal`; `obj` carries
the decoded fields (`done`, `response`, `message.content` when a
`message` object is present, `prompt_eval_count`). -/
inductive OllamaLine where
  | malformed
  | obj (done : Bool) (response : String) (message : Option String)
      (promptEvalCount : Int)
deriving DecidableEq

/-- `(*tokenParser).parseOllamaLine` (gcpclient.go). -/
def parseOllamaLine (s : St) : OllamaLine → St
  | .malformed => s
  | .obj done response message promptEvalCount =>
    if done then
      if promptEvalCount > 0 then
        { s with
          input := promptEvalCount
          totalInput := s.totalInput + promptEvalCount }
      else s
    else
      let hasContent : Bool :=
        response != "" ||
          (match message with
           | some c => c != ""
           | none => false)
      if hasContent then countOutput s else s

/-- `choices[i].delta` of an OpenAI chat SSE frame. -/
structure ChatDelta where
  content : String
  reasoningContent : String
deriving DecidableEq

/-- Decoded form of one line fed to `parseOpenAIChatLine`: a line that
does not carry the `data: ` SSE marker, the `[DONE]` terminator, a
malformed JSON payload, or a decoded frame with its `choices` array and
the optional `usage.prompt_tokens`. -/
inductive ChatLine where
  | notData
  | doneMark
  | malformed
  | obj (choices : List ChatDelta) (usagePromptTokens : Option Int)
deriving DecidableEq

/-- `(*tokenParser).parseOpenAIChatLine` (gcpclient.go). -/
def parseOpenAIChatLine (s : St) : ChatLine → St
  | .notData => s
  | .doneMark => s
  | .malformed => s
  | .obj choices usage =>
    let s :=
      match choices with
      | [] => s
      | d :: _ =>
        if d.content != "" || d.reasoningContent != "" then countOutput s
        else s
    match usage with
    | some pt =>
      if pt > 0 && s.input == 0 then
        { s with input := pt, totalInput := s.totalInput + pt }
      else s
    | none => s

/-- Fields of an Anthropic SSE `data:` payload relevant to the three
event branches of `parseAnthropicLine`. -/
structure AnthData where
  messageUsageInputTokens : Int
  deltaText : String
  deltaThinking : String
  deltaPartialJson : String
  usageOutputTokens : Int
deriving DecidableEq

/-- Decoded form of one line fed to `parseAnthropicLine`: an
`event: <name>` line, a line with neither SSE marker, or a `data:` line
whose payload decoded (`some`) or failed to decode (`none`). -/
inductive AnthLine where
  | event (name : String)
  | notData
  | data (payload : Option AnthData)
deriving DecidableEq

/-- `(*tokenParser).parseAnthropicLine` (gcpclient.go). -/
def parseAnthropicLine (s : St) : AnthLine → St
  | .event name => { s with lastEvent := name }
  | .notData => s
  | .data none => s
  | .data (some d) =>
    if s.lastEvent == "message_start" then
      if d.messageUsageInputTokens > 0 then
        { s with
          input := d.messageUsageInputTokens
          totalInput := s.totalInput + d.messageUsageInputTokens }
      else s
    else if s.lastEvent == "content_block_delta" then
      if d.deltaText != "" || d.deltaThinking != "" ||
          d.deltaPartialJson != "" then
        countOutput s
      else s
    else if s.lastEvent == "message_delta" then
      if d.usageOutputTokens > 0 then
        let diff := d.usageOutputTokens - s.output
        if diff != 0 then
          { s with
            output := s.output + diff
            totalOutput := s.totalOutput + diff }
        else s
      else s
    else s

/-- Fields of an OpenAI Responses SSE `data:` payload relevant to
`parseOpenAIResponsesLine`. -/
structure RespData where
  delta : String
  usageInputTokens : Int
  usageOutputTokens : Int
deriving DecidableEq

/-- Decoded form of one line fed to `parseOpenAIResponsesLine`. -/
inductive RespLine where
  | event (name : String)
  | notData
  | data (payload : Option RespData)
deriving DecidableEq

/-- `(*tokenParser).parseOpenAIResponsesLine` (gcpclient.go). -/
def parseOpenAIResponsesLine (s : St) : RespLine → St
  | .event name => { s with lastEvent := name }
  | .notData => s
  | .data none => s
  | .data (some d) =>
    if s.lastEvent == "response.output_text.delta" ||
        s.lastEvent == "response.reasoning_summary_text.delta" ||
        s.lastEvent == "response.function_call_arguments.delta" then
      if d.delta != "" then countOutput s else s
    else if s.lastEvent == "response.completed" then
      let s :=
        if d.usageInputTokens > 0 && s.input == 0 then
          { s with
            input := d.usageInputTokens
            totalInput := s.totalInput + d.usageInputTokens }
        else s
      if d.usageOutputTokens > 0 then
        let diff := d.usageOutputTokens - s.output
        if diff != 0 then
          { s with
            output := s.output + diff
            totalOutput := s.totalOutput + diff }
        else s
      else s
    else s

end Token

namespace Gate

/-- State of the resettable channel gate of proxy.go.  The Go code keeps
a current channel `readyCh` (guarded by `readyMu`) and signals readiness
by `close`-ing it; `closeGate` replaces it by a fresh unclosed channel.
Channel objects are identified by natural numbers: `cur` is the identity
of the current `readyCh`, and `chanClosed c = true` means channel object
`c` has been `close`d (a closed channel means the gate is OPEN). -/
structure GateState where
  cur : Nat
  chanClosed : Nat → Bool

/-- The gate is open iff the current channel is closed (a receive on it
does not block). -/
def gateOpen (s : GateState) : Bool := s.chanClosed s.cur

/-- `openGate` (proxy.go): if the current channel is already closed this
is a no-op; otherwise `close(readyCh)`. -/
def openGate (s : GateState) : GateState :=
  if s.chanClosed s.cur then s
  else { s with chanClosed := fun n => if n = s.cur then true else s.chanClosed n }

/-- `closeGate` (proxy.go): if the current channel is closed (gate
open), install a fresh blocking channel (`readyCh = make(chan struct)`,
modelled by the next unused identifier); otherwise no-op. -/
def closeGate (s : GateState) : GateState :=
  if s.chanClosed s.cur then { s with cur := s.cur + 1 } else s

/-- Initial state: `readyCh = make(chan struct)` — one fresh unclosed
channel, gate closed. -/
def initGate : GateState := { cur := 0, chanClosed := fun _ => false }

/-- Freshness invariant: channel identifiers above `cur` have never been
used, hence are not closed.  Holds initially and is preserved by both
gate operations (`closeGate` allocates `cur + 1` as the fresh channel). -/
def Fresh (s : GateState) : Prop := ∀ n, s.cur < n → s.chanClosed n = false

/-- Outcome of one observation of `waitReady` (proxy.go): the `select`
over the captured channel and the caller's context. -/
inductive WaitOutcome where
  | ready
  | cancelled
  | blocked
deriving DecidableEq

/-- One observation of the `select` inside `waitReady` (proxy.go) by a
waiter that captured channel `captured` at call time: it completes when
the captured channel is closed, returns the context's cancellation error
when the context is done, and otherwise remains blocked. -/
def waitStep (s : GateState) (captured : Nat) (ctxDone : Bool) : WaitOutcome :=
  if s.chanClosed captured then .ready
  else if ctxDone then .cancelled
  else .blocked

/-- Writer operations the ops loop may perform on the gate. -/
inductive GateOp where
  | opOpen
  | opClose
deriving DecidableEq

/-- Apply one writer operation. -/
def applyOp (s : GateState) : GateOp → GateState
  | .opOpen => openGate s
  | .opClose => closeGate s

/-- Apply a sequence of writer operations in order. -/
def applyOps (s : GateState) (l : List GateOp) : GateState := l.foldl applyOp s

end Gate

namespace Handler

/-- Gate/ops-loop visible state shared between the proxy handler and the
ops loop: whether the readiness gate is open, and whether the buffered
(capacity 1) recovery channel `InfraOps.recoveryCh` currently holds a
signal. -/
structure OpsSig where
  gateOpen : Bool
  recoverySignaled : Bool
deriving DecidableEq

/-- `InfraOps.EnsureSetup` (gcpclient.go): if the gate is already open,
return; otherwise attempt a non-blocking send on the buffered recovery
channel (a no-op when a signal is already pending). -/
def ensureSetup (s : OpsSig) : OpsSig :=
  if s.gateOpen then s else { s with recoverySignaled := true }

/-- `InfraOps.RequestRecovery` (gcpclient.go): close the gate, then
attempt a non-blocking send on the recovery channel. -/
def requestRecovery (_s : OpsSig) : OpsSig :=
  { gateOpen := false, recoverySignaled := true }

/-- One iteration of the ops loop `InfraOps.Run` (gcpclient.go) runs
`doSetup` exactly when a recovery signal is pending on `recoveryCh`. -/
def opsLoopRunsSetup (s : OpsSig) : Bool := s.recoverySignaled

/-- The statements of `proxyHandler` (src/cli/proxy.go), abstracted to
named steps in source order.  The constructor `ensureSetup` is available
to express the step "call `ops.EnsureSetup()`", which the handler body
does not contain. -/
inductive HandlerStep where
  | recordStart
  | getContext
  | ensureSetup
  | waitGate
  | loadTLS
  | buildEndpoint
  | readBody
  | sendLoop
  | streamBody
  | publishEvent
deriving DecidableEq

/-- The step sequence of `proxyHandler` as written in src/cli/proxy.go:
record the arrival time, take the request context, wait on the readiness
gate (`waitReady`), load the TLS config, build the upstream endpoint,
buffer the body, run the retry/send loop, stream the response, publish
the request event.  No step invokes `InfraOps.EnsureSetup`. -/
def proxyHandlerSteps : List HandlerStep :=
  [.recordStart, .getContext, .waitGate, .loadTLS, .buildEndpoint,
   .readBody, .sendLoop, .streamBody, .publishEvent]

/-- Effect of one handler step on the gate/recovery state.  Only an
`ensureSetup` step touches it (the send loop's failure path calls
`RequestRecovery`, but that is not reached before the first `waitGate`). -/
def runHandlerStep (s : OpsSig) : HandlerStep → OpsSig
  | .ensureSetup => ensureSetup s
  | _ => s

/-- The steps `proxyHandler` executes before it first waits on the gate. -/
def preWaitSteps : List HandlerStep :=
  proxyHandlerSteps.takeWhile (fun st => st ≠ .waitGate)

end Handler

namespace Infra

/-- Trace tags for the effectful steps of the ops-loop actions, one tag
per call site (the two `isVMStopped` calls inside `doSetup` are distinct
call sites and get distinct tags). -/
inductive OpStep where
  | statusCheckCached
  | firewallOpen
  | statusCheckMain
  | certRotation
  | vmStart
  | vmStop
  | vmDelete
  | infraUp
  | removeFirewall
deriving DecidableEq

/-- Oracle environment for the fallible remote calls an action performs.
Each field is the result the corresponding call would return during this
action. -/
structure Env where
  vmStoppedCached : Except String Bool
  vmStoppedMain : Except String Bool
  firewall : Except String Unit
  rotate : Except String Unit
  vmStart : Except String String
  stop : Except String Unit
  delete : Except String Unit
  infraUp : Except String Unit

/-- Proxy/infra state mutated by the ops-loop actions (proxy.go package
variables `vmIP`, `rotatedOnce`, `proxyReady`, the gate, the TLS cert
cache validity, and the firewall rule). -/
structure InfraState where
  gateOpen : Bool
  vmIP : String
  rotatedOnce : Bool
  proxyReady : Bool
  tlsCacheValid : Bool
  firewallActive : Bool
deriving DecidableEq

/-- `openGate` as seen at this abstraction level. -/
def openGate (s : InfraState) : InfraState := { s with gateOpen := true }

/-- `closeGate` as seen at this abstraction level. -/
def closeGate (s : InfraState) : InfraState := { s with gateOpen := false }

/-- `resetProxyState` (proxy.go): clear the cached IP, mark not ready,
close the gate, clear the rotated-once flag and invalidate the TLS cert
cache.  Must be called holding the ops mutex. -/
def resetProxyState (s : InfraState) : InfraState :=
  { s with
    vmIP := ""
    proxyReady := false
    gateOpen := false
    rotatedOnce := false
    tlsCacheValid := false }

/-- `removeFirewall` deletes the rule, tolerating 404; the callers in
the ops actions ignore its error, so it is modelled as infallible. -/
def removeFirewallOp (s : InfraState) : InfraState :=
  { s with firewallActive := false }

/-- Result of one ops-loop action: the final state, the ordered list of
fallible remote steps the action attempted, and the returned error if
any (`doSetup` returns no error; the other four return `error`). -/
structure ActionResult where
  state : InfraState
  steps : List OpStep
  err : Option String
deriving DecidableEq

/-- The tail of `doSetup` (gcpclient.go) after the cached-IP fast path:
ensure the firewall is open, check whether the VM is stopped, rotate
certificates when it is stopped and no rotation happened this cycle,
start the VM, then cache the IP, mark ready and open the gate.  Any step
returning an error logs and returns immediately, leaving the state
otherwise untouched. -/
def doSetupMain (env : Env) (s : InfraState) (pre : List OpStep) : ActionResult :=
  match env.firewall with
  | .error _ => ⟨s, pre ++ [.firewallOpen], none⟩
  | .ok _ =>
    match env.vmStoppedMain with
    | .error _ => ⟨s, pre ++ [.firewallOpen, .statusCheckMain], none⟩
    | .ok needsStart =>
      if needsStart && !s.rotatedOnce then
        match env.rotate with
        | .error _ =>
          ⟨s, pre ++ [.firewallOpen, .statusCheckMain, .certRotation], none⟩
        | .ok _ =>
          let s := { s with rotatedOnce := true }
          match env.vmStart with
          | .error _ =>
            ⟨s, pre ++ [.firewallOpen, .statusCheckMain, .certRotation, .vmStart],
              none⟩
          | .ok ip =>
            ⟨openGate { s with vmIP := ip, proxyReady := true },
              pre ++ [.firewallOpen, .statusCheckMain, .certRotation, .vmStart],
              none⟩
      else
        match env.vmStart with
        | .error _ => ⟨s, pre ++ [.firewallOpen, .statusCheckMain, .vmStart], none⟩
        | .ok ip =>
          ⟨openGate { s with vmIP := ip, proxyReady := true },
            pre ++ [.firewallOpen, .statusCheckMain, .vmStart], none⟩

/-- `(*InfraOps).doSetup` (gcpclient.go): with a cached IP, verify the
VM still runs — on a status-check error or a running VM, open the gate
and return (keep using the cached IP); if it stopped, reset the proxy
state and fall through to the full startup path. -/
def doSetup (env : Env) (s : InfraState) : ActionResult :=
  if s.vmIP != "" then
    match env.vmStoppedCached with
    | .error _ => ⟨openGate s, [.statusCheckCached], none⟩
    | .ok false => ⟨openGate s, [.statusCheckCached], none⟩
    | .ok true => doSetupMain env (resetProxyState s) [.statusCheckCached]
  else
    doSetupMain env s []

/-- `(*InfraOps).doStopVM` (gcpclient.go): close the gate, stop the VM
(returning its error on failure), then reset the proxy state and remove
the firewall. -/
def doStopVM (env : Env) (s : InfraState) : ActionResult :=
  let s := closeGate s
  match env.stop with
  | .error e => ⟨s, [.vmStop], some e⟩
  | .ok _ => ⟨removeFirewallOp (resetProxyState s), [.vmStop, .removeFirewall], none⟩

/-- `(*InfraOps).doStartVM` (gcpclient.go): open the firewall and start
the VM if stopped (the returned IP is discarded), then reset the proxy
state.  Note: it performs no gate transition of its own. -/
def doStartVM (env : Env) (s : InfraState) : ActionResult :=
  match env.firewall with
  | .error e => ⟨s, [.firewallOpen], some e⟩
  | .ok _ =>
    match env.vmStart with
    | .error e => ⟨s, [.firewallOpen, .vmStart], some e⟩
    | .ok _ => ⟨resetProxyState s, [.firewallOpen, .vmStart], none⟩

/-- `(*InfraOps).doRestartVM` (gcpclient.go): close the gate, stop the
VM, rotate certificates, open the firewall, start the VM, then reset the
proxy state; the first failing step aborts the action. -/
def doRestartVM (env : Env) (s : InfraState) : ActionResult :=
  let s := closeGate s
  match env.stop with
  | .error e => ⟨s, [.vmStop], some e⟩
  | .ok _ =>
    match env.rotate with
    | .error e => ⟨s, [.vmStop, .certRotation], some e⟩
    | .ok _ =>
      match env.firewall with
      | .error e => ⟨s, [.vmStop, .certRotation, .firewallOpen], some e⟩
      | .ok _ =>
        match env.vmStart with
        | .error e =>
          ⟨s, [.vmStop, .certRotation, .firewallOpen, .vmStart], some e⟩
        | .ok _ =>
          ⟨resetProxyState s, [.vmStop, .certRotation, .firewallOpen, .vmStart],
            none⟩

/-- `(*InfraOps).doResetVM` (gcpclient.go): close the gate, delete the
VM, rotate certificates, re-provision via the external provisioner, then
reset the proxy state; the first failing step aborts the action. -/
def doResetVM (env : Env) (s : InfraState) : ActionResult :=
  let s := closeGate s
  match env.delete with
  | .error e => ⟨s, [.vmDelete], some e⟩
  | .ok _ =>
    match env.rotate with
    | .error e => ⟨s, [.vmDelete, .certRotation], some e⟩
    | .ok _ =>
      match env.infraUp with
      | .error e => ⟨s, [.vmDelete, .certRotation, .infraUp], some e⟩
      | .ok _ => ⟨resetProxyState s, [.vmDelete, .certRotation, .infraUp], none⟩

/-- Whether a fallible call succeeded. -/
def exceptOk : Except String Unit → Bool
  | .ok _ => true
  | .error _ => false

/-- The oracle outcome of each traced step (the value-returning calls
are mapped to their success/failure; `removeFirewall` ignores errors and
is infallible at this level). -/
def oracleOf (env : Env) : OpStep → Except String Unit
  | .statusCheckCached => env.vmStoppedCached.map fun _ => ()
  | .statusCheckMain => env.vmStoppedMain.map fun _ => ()
  | .firewallOpen => env.firewall
  | .certRotation => env.rotate
  | .vmStart => env.vmStart.map fun _ => ()
  | .vmStop => env.stop
  | .vmDelete => env.delete
  | .infraUp => env.infraUp
  | .removeFirewall => .ok ()

end Infra

/-- Abstract byte strings (PEM/DER blobs, tokens, hashes): opaque
identifiers.  A SHA-256 hash function over them is passed around as an
explicit parameter `sha256`.  The all-zero 32-byte fingerprint sentinel
`[32]byte` of the Go code is modelled by the value `0`. -/
abbrev Bytes := Nat

namespace Certs

/-- The `VerifyPeerCertificate` hook installed by `refreshTLSConfig`
(src/cli/certs.go): reject an empty certificate list, then compare the
SHA-256 of the leaf DER against the pinned fingerprint, skipping the
comparison when no fingerprint has been pinned yet (all-zero sentinel). -/
def verifyPeerCertificate (sha256 : Bytes → Bytes) (pinned : Bytes)
    (rawCerts : List Bytes) : Except String Unit :=
  match rawCerts with
  | [] => .error "no server certificate presented"
  | leaf :: _ =>
    let fp := sha256 leaf
    if pinned != 0 && fp != pinned then
      .error "server cert fingerprint mismatch (possible impersonation)"
    else
      .ok ()

end Certs

namespace Rotation

/-- A PEM-encoded certificate: `pem.EncodeToMemory` of a DER payload.
`pem.Decode` of such a value recovers the DER. -/
structure Pem where
  der : Bytes
deriving DecidableEq

/-- `pem.Decode` applied to a PEM value produced by
`pem.EncodeToMemory` (the only PEM values flowing through
`rotateCerts`): always recovers the DER payload. -/
def pemDecode (p : Pem) : Option Bytes := some p.der

/-- Trace tags for the externally visible effects of `rotateCerts`. -/
inductive RotStep where
  | pinInstall
  | writeLocal (name : String)
  | writeSecretVersion (id : String)
  | invalidateCache
deriving DecidableEq

/-- Oracle environment for the fallible steps of `rotateCerts`
(src/unnamed/part_011): directory setup, `ensureCA`,
`generateServerCert`, `generateClientCert`, `generateToken`, the local
file writes and the Secret Manager writes. -/
structure REnv where
  dirOk : Except String Unit
  ca : Except String (Bytes × Bytes)
  serverGen : Except String (Pem × Bytes)
  clientGen : Except String (Bytes × Bytes)
  tokenGen : Except String Bytes
  writeClientCrt : Except String Unit
  writeClientKey : Except String Unit
  writeToken : Except String Unit
  smClient : Except String Unit
  writeSecret : String → Except String Unit

/-- State owned by the rotation engine: the in-memory pinned server
fingerprint (`pinnedFingerprint`, 0 = all-zero sentinel), the local cert
store contents, the TLS cert cache validity, and a trace of effects in
execution order. -/
structure RotState where
  pinned : Bytes
  localFiles : String → Option Bytes
  tlsCacheValid : Bool
  trace : List RotStep

/-- One local cert-store write inside the `localFiles` loop of
`rotateCerts`: on success the file content is recorded and the write is
traced; on failure the function returns the error. -/
def writeLocalFile (s : RotState) (name : String) (data : Bytes)
    (ok : Except String Unit) : RotState × Option String :=
  match ok with
  | .error e => (s, some e)
  | .ok _ =>
    ({ s with
        localFiles := fun n => if n = name then some data else s.localFiles n
        trace := s.trace ++ [.writeLocal name] },
      none)

/-- One Secret Manager write inside the `secrets` loop of `rotateCerts`. -/
def writeSecretVersion (env : REnv) (s : RotState) (id : String) :
    RotState × Option String :=
  match env.writeSecret id with
  | .error e => (s, some e)
  | .ok _ => ({ s with trace := s.trace ++ [.writeSecretVersion id] }, none)

/-- The Secret Manager loop of `rotateCerts` over the four secret ids.
Go iterates the `secrets` map in nondeterministic order; all four writes
happen after the local writes in every order, which is all the claims
need, so a fixed order is used here. -/
def writeSecrets (env : REnv) (s : RotState) : List String →
    RotState × Option String
  | [] => (s, none)
  | id :: rest =>
    match writeSecretVersion env s id with
    | (s, some e) => (s, some e)
    | (s, none) => writeSecrets env s rest

/-- `rotateCerts` (src/unnamed/part_011): ensure the cert directory and
the CA, generate a fresh server certificate, pin the SHA-256 of its DER
in memory, generate a fresh client certificate and bearer token, write
client cert/key/token to the local cert store, publish the four secrets
to Secret Manager, and invalidate the TLS cert cache.  Every failing
step returns its error immediately.  The local `localFiles` map is
iterated by Go in nondeterministic order; a fixed order is used here
(every order places all three writes after the pin install). -/
def rotateCerts (sha256 : Bytes → Bytes) (env : REnv) (s : RotState) :
    RotState × Option String :=
  match env.dirOk with
  | .error e => (s, some e)
  | .ok _ =>
    match env.ca with
    | .error e => (s, some e)
    | .ok _ =>
      match env.serverGen with
      | .error e => (s, some e)
      | .ok (serverCertPem, _serverKeyPem) =>
        match pemDecode serverCertPem with
        | none => (s, some "failed to decode server cert PEM for pinning")
        | some der =>
          let fp := sha256 der
          let s := { s with pinned := fp, trace := s.trace ++ [.pinInstall] }
          match env.clientGen with
          | .error e => (s, some e)
          | .ok (clientCertPem, clientKeyPem) =>
            match env.tokenGen with
            | .error e => (s, some e)
            | .ok token =>
              match writeLocalFile s "client.crt" clientCertPem
                  env.writeClientCrt with
              | (s, some e) => (s, some e)
              | (s, none) =>
                match writeLocalFile s "client.key" clientKeyPem
                    env.writeClientKey with
                | (s, some e) => (s, some e)
                | (s, none) =>
                  match writeLocalFile s "token" token env.writeToken with
                  | (s, some e) => (s, some e)
                  | (s, none) =>
                    match env.smClient with
                    | .error e => (s, some e)
                    | .ok _ =>
                      match writeSecrets env s
                          ["private-llm-server-cert", "private-llm-server-key",
                           "private-llm-ca-cert", "private-llm-internal-token"] with
                      | (s, some e) => (s, some e)
                      | (s, none) =>
                        ({ s with
                            tlsCacheValid := false
                            trace := s.trace ++ [.invalidateCache] },
                          none)

end Rotation

namespace Headers

/-- Go `http.Header`: a map from (canonicalized) header keys to value
lists. -/
abbrev Header := String → List String

/-- `Header.Add` (net/http): append one value to the key's list. -/
def headerAdd (h : Header) (k v : String) : Header :=
  fun x => if x = k then h x ++ [v] else h x

/-- `Header.Set` (net/http): replace the key's values by the single
given value. -/
def headerSet (h : Header) (k v : String) : Header :=
  fun x => if x = k then [v] else h x

/-- The empty header map of a fresh `http.NewRequestWithContext`. -/
def emptyHeader : Header := fun _ => []

/-- One iteration of the header-copy loop of `proxyHandler`
(src/cli/proxy.go): skip `Authorization`, otherwise `Add` every value of
the key in order. -/
def copyStep (inbound : Header) (acc : Header) (k : String) : Header :=
  if k = "Authorization" then acc
  else (inbound k).foldl (fun a v => headerAdd a k v) acc

/-- The header-copy loop of `proxyHandler` (src/cli/proxy.go): iterate
the inbound header's keys (`keys` is the key set of the Go map), skip
`Authorization`, and `Add` every value of every other key in order. -/
def copyHeaders (keys : List String) (inbound : Header) : Header :=
  keys.foldl (copyStep inbound) emptyHeader

/-- The upstream request's header-relevant fields. -/
structure UpstreamReq where
  headers : Header
  host : String

/-- The upstream request construction of `proxyHandler`
(src/cli/proxy.go): copy all inbound headers except `Authorization`,
`Set` the internal bearer token as `Authorization`, and set the HTTP
host to "private-llm-server". -/
def buildUpstreamReq (keys : List String) (inbound : Header)
    (token : String) : UpstreamReq :=
  { headers :=
      headerSet (copyHeaders keys inbound) "Authorization"
        ("Bearer " ++ token)
    host := "private-llm-server" }

end Headers

namespace Cfg

/-- Go `strings.Split(s, sep)` for a one-character separator, on the
character list of the string: splitting an empty string yields one empty
field, and every separator occurrence starts a new field. -/
def splitOnChar (sep : Char) : List Char → List (List Char)
  | [] => [[]]
  | c :: rest =>
    let r := splitOnChar sep rest
    if c = sep then [] :: r
    else
      match r with
      | [] => [[c]]
      | g :: gs => (c :: g) :: gs

/-- Go `strings.Join(parts, "-")`. -/
def joinDash : List String → String
  | [] => ""
  | [x] => x
  | x :: y :: xs => x ++ "-" ++ joinDash (y :: xs)

/-- `Config` (src/unnamed/part_011, the revision the claims cite): the
fields of agent.json.  A field missing from the JSON file decodes to its
zero value (empty string or 0). -/
structure Config where
  projectID : String := ""
  zone : String := ""
  vmName : String := ""
  network : String := ""
  region : String := ""
  machineType : String := ""
  defaultModel : String := ""
  contextLength : Int := 0
  idleTimeout : Int := 0
  subnetCIDR : String := ""
deriving DecidableEq

/-- `applyDefaults` (src/unnamed/part_011): fill every empty field with
its default.  The Go code assigns the fields one after the other on the
shared `cfg`; the only later condition that reads an earlier-updated
field is the region derivation, which reads the already-defaulted zone —
so the sequence is written here in equivalent single-assignment form.
The region is derived from the (already defaulted) zone by dropping the
final dash-separated component when the zone has at least three
components. -/
def applyDefaults (c : Config) : Config :=
  let zone := if c.zone = "" then "us-central1-a" else c.zone
  { c with
    zone := zone
    vmName := if c.vmName = "" then "private-llm-vm" else c.vmName
    network := if c.network = "" then "private-llm" else c.network
    region :=
      if c.region = "" then
        let parts := (splitOnChar (Char.ofNat 0x2d) zone.data).map String.mk
        if parts.length ≥ 3 then joinDash parts.dropLast
        else "us-central1"
      else c.region
    machineType :=
      if c.machineType = "" then "g4-standard-48" else c.machineType
    defaultModel :=
      if c.defaultModel = "" then "qwen3-coder-next:q8_0" else c.defaultModel
    contextLength := if c.contextLength = 0 then 262144 else c.contextLength
    idleTimeout := if c.idleTimeout = 0 then 300 else c.idleTimeout
    subnetCIDR := if c.subnetCIDR = "" then "10.10.0.0/24" else c.subnetCIDR }

/-- Input to `loadConfig`: the config file is missing, fails to parse,
or decodes to a `Config` (missing JSON fields as zero values). -/
inductive LoadInput where
  | missingFile
  | parseError
  | parsed (c : Config)
deriving DecidableEq

/-- `loadConfig` (src/unnamed/part_011): read and decode the file, apply
the defaults, then require `project_id` and `zone` to be non-empty. -/
def loadConfig : LoadInput → Except String Config
  | .missingFile => .error "config not found"
  | .parseError => .error "failed to parse config"
  | .parsed c =>
    let c := applyDefaults c
    if c.projectID = "" ∨ c.zone = "" then
      .error "config must include project_id and zone"
    else
      .ok c

end Cfg

/-!
## Claim theorems
-/

/-- Claim C1 (counterexample): the global cumulative output counter is
not monotonically non-decreasing.  For the anthropic style, streaming two
content-block deltas and then a `message_delta` frame whose authoritative
`usage.output_tokens` is 1 makes the parsing step decrease the global
output counter (from 2 to 1): the difference of the authoritative count
and the streamed count is applied even when it is negative. -/
theorem claim_C1_counterexample :
    (Token.parseAnthropicLine
        (List.foldl Token.parseAnthropicLine {}
          [Token.AnthLine.event "content_block_delta",
           Token.AnthLine.data (some ⟨0, "a", "", "", 0⟩),
           Token.AnthLine.data (some ⟨0, "b", "", "", 0⟩),
           Token.AnthLine.event "message_delta"])
        (Token.AnthLine.data (some ⟨0, "", "", "", 1⟩))).totalOutput <
      (List.foldl Token.parseAnthropicLine {}
        [Token.AnthLine.event "content_block_delta",
         Token.AnthLine.data (some ⟨0, "a", "", "", 0⟩),
         Token.AnthLine.data (some ⟨0, "b", "", "", 0⟩),
         Token.AnthLine.event "message_delta"]).totalOutput := by
  decide

/-- The ollama parser never decreases either global counter. -/
theorem ollama_totals_mono (s : Token.St) (l : Token.OllamaLine) :
    (Token.parseOllamaLine s l).totalInput ≥ s.totalInput ∧
    (Token.parseOllamaLine s l).totalOutput ≥ s.totalOutput := by
  cases l <;>
    simp only [Token.parseOllamaLine, Token.countOutput] <;>
    (repeat' split) <;>
    first
      | omega
      | (simp_all; omega)
      | simp_all

/-- The openai-chat parser never decreases either global counter. -/
theorem chat_totals_mono (s : Token.St) (l : Token.ChatLine) :
    (Token.parseOpenAIChatLine s l).totalInput ≥ s.totalInput ∧
    (Token.parseOpenAIChatLine s l).totalOutput ≥ s.totalOutput := by
  cases l <;>
    simp only [Token.parseOpenAIChatLine, Token.countOutput] <;>
    (repeat' split) <;>
    first
      | omega
      | (simp_all; omega)
      | simp_all

/-- The anthropic parser never decreases the global input counter, and
never decreases the global output counter except by syncing it with a
reduced positive authoritative per-request count. -/
theorem anthropic_totals (s : Token.St) (l : Token.AnthLine) :
    (Token.parseAnthropicLine s l).totalInput ≥ s.totalInput ∧
    ((Token.parseAnthropicLine s l).totalOutput ≥ s.totalOutput ∨
      ((Token.parseAnthropicLine s l).totalOutput - s.totalOutput =
          (Token.parseAnthropicLine s l).output - s.output ∧
        0 < (Token.parseAnthropicLine s l).output ∧
        (Token.parseAnthropicLine s l).output < s.output)) := by
  cases l <;>
    simp only [Token.parseAnthropicLine, Token.countOutput] <;>
    (repeat' split) <;>
    first
      | omega
      | (simp_all; omega)
      | simp_all

/-- The openai-responses parser never decreases the global input
counter, and never decreases the global output counter except by syncing
it with a reduced positive authoritative per-request count. -/
theorem responses_totals (s : Token.St) (l : Token.RespLine) :
    (Token.parseOpenAIResponsesLine s l).totalInput ≥ s.totalInput ∧
    ((Token.parseOpenAIResponsesLine s l).totalOutput ≥ s.totalOutput ∨
      ((Token.parseOpenAIResponsesLine s l).totalOutput - s.totalOutput =
          (Token.parseOpenAIResponsesLine s l).output - s.output ∧
        0 < (Token.parseOpenAIResponsesLine s l).output ∧
        (Token.parseOpenAIResponsesLine s l).output < s.output)) := by
  cases l <;>
    simp only [Token.parseOpenAIResponsesLine, Token.countOutput] <;>
    (repeat' split) <;>
    first
      | omega
      | (simp_all; omega)
      | simp_all

/-- Claim C1 (amended): for every parser state and every line of every
API style, the global cumulative input counter never decreases, and the
global cumulative output counter never decreases either — except at an
authoritative-count step (anthropic `message_delta`, openai-responses
`response.completed`), where the global counter moves by exactly the
per-request correction and can decrease only when the positive
authoritative count is strictly below the streamed per-request count. -/
theorem claim_C1_amended (s : Token.St) (lo : Token.OllamaLine)
    (lc : Token.ChatLine) (la : Token.AnthLine) (lr : Token.RespLine) :
    (Token.parseOllamaLine s lo).totalInput ≥ s.totalInput ∧
    (Token.parseOllamaLine s lo).totalOutput ≥ s.totalOutput ∧
    (Token.parseOpenAIChatLine s lc).totalInput ≥ s.totalInput ∧
    (Token.parseOpenAIChatLine s lc).totalOutput ≥ s.totalOutput ∧
    (Token.parseAnthropicLine s la).totalInput ≥ s.totalInput ∧
    ((Token.parseAnthropicLine s la).totalOutput ≥ s.totalOutput ∨
      ((Token.parseAnthropicLine s la).totalOutput - s.totalOutput =
          (Token.parseAnthropicLine s la).output - s.output ∧
        0 < (Token.parseAnthropicLine s la).output ∧
        (Token.parseAnthropicLine s la).output < s.output)) ∧
    (Token.parseOpenAIResponsesLine s lr).totalInput ≥ s.totalInput ∧
    ((Token.parseOpenAIResponsesLine s lr).totalOutput ≥ s.totalOutput ∨
      ((Token.parseOpenAIResponsesLine s lr).totalOutput - s.totalOutput =
          (Token.parseOpenAIResponsesLine s lr).output - s.output ∧
        0 < (Token.parseOpenAIResponsesLine s lr).output ∧
        (Token.parseOpenAIResponsesLine s lr).output < s.output)) :=
  ⟨(ollama_totals_mono s lo).1, (ollama_totals_mono s lo).2,
   (chat_totals_mono s lc).1, (chat_totals_mono s lc).2,
   (anthropic_totals s la).1, (anthropic_totals s la).2,
   (responses_totals s lr).1, (responses_totals s lr).2⟩

/-- Claim C8 (counterexample): a second `"done": true` line in the same
request is not without effect on the input totals.  After a done line
with `prompt_eval_count` 7, a second done line with `prompt_eval_count`
5 overwrites the per-request input total (7 becomes 5) and adds again to
the global input counter (7 becomes 12): the adoption is not guarded to
happen exactly once. -/
theorem claim_C8_counterexample :
    ((Token.parseOllamaLine {} (Token.OllamaLine.obj true "" none 7)).input = 7 ∧
      (Token.parseOllamaLine {} (Token.OllamaLine.obj true "" none 7)).totalInput
        = 7) ∧
    (Token.parseOllamaLine
        (Token.parseOllamaLine {} (Token.OllamaLine.obj true "" none 7))
        (Token.OllamaLine.obj true "" none 5)).input = 5 ∧
    (Token.parseOllamaLine
        (Token.parseOllamaLine {} (Token.OllamaLine.obj true "" none 7))
        (Token.OllamaLine.obj true "" none 5)).totalInput = 12 := by
  decide

/-- Claim C8 (amended): for the ollama style, each line with
`"done": false` and non-empty content (`response` for generate,
`message.content` for chat) increments the per-request and global output
counters by exactly one and leaves the input counts unchanged; a line
with `"done": true` increments nothing on the output side, and on
EVERY such line with positive `prompt_eval_count` (not just the first)
sets the per-request input total to that value and adds it to the global
input counter; a done line without positive `prompt_eval_count`, a
contentless non-done line, and a malformed line change nothing. -/
theorem claim_C8_amended (s : Token.St) (response : String)
    (message : Option String) (pec : Int) :
    ((Token.parseOllamaLine s (.obj true response message pec)).output =
        s.output ∧
      (Token.parseOllamaLine s (.obj true response message pec)).streamed =
        s.streamed ∧
      (Token.parseOllamaLine s (.obj true response message pec)).totalOutput =
        s.totalOutput) ∧
    (pec > 0 →
      (Token.parseOllamaLine s (.obj true response message pec)).input = pec ∧
      (Token.parseOllamaLine s (.obj true response message pec)).totalInput =
        s.totalInput + pec) ∧
    (pec ≤ 0 → Token.parseOllamaLine s (.obj true response message pec) = s) ∧
    ((response ≠ "" ∨ (∃ c, message = some c ∧ c ≠ "")) →
      Token.parseOllamaLine s (.obj false response message pec) =
        Token.countOutput s) ∧
    ((response = "" ∧ ∀ c, message = some c → c = "") →
      Token.parseOllamaLine s (.obj false response message pec) = s) ∧
    Token.parseOllamaLine s .malformed = s ∧
    (Token.countOutput s).output = s.output + 1 ∧
    (Token.countOutput s).totalOutput = s.totalOutput + 1 ∧
    (Token.countOutput s).input = s.input ∧
    (Token.countOutput s).totalInput = s.totalInput := by
  refine ⟨?_, ?_, ?_, ?_, ?_, ?_, ?_, ?_, ?_, ?_⟩
  · by_cases hp : (0 : Int) < pec <;> simp [Token.parseOllamaLine, hp]
  · intro h
    simp [Token.parseOllamaLine, h]
  · intro h
    simp [Token.parseOllamaLine, show ¬(0 : Int) < pec from by omega]
  · intro h
    rcases h with h | ⟨c, hc, hne⟩
    · simp [Token.parseOllamaLine, bne_iff_ne, h]
    · subst hc
      simp [Token.parseOllamaLine, bne_iff_ne, hne]
  · intro h
    obtain ⟨h1, h2⟩ := h
    subst h1
    cases message with
    | none => simp [Token.parseOllamaLine]
    | some c => simp [Token.parseOllamaLine, h2 c rfl]
  · rfl
  · simp [Token.countOutput]
  · simp [Token.countOutput]
  · simp [Token.countOutput]
  · simp [Token.countOutput]

/-- Claim C8 (witness): the amended ollama-parser characterization
evaluated at concrete inputs, discharging each hypothesis. -/
theorem claim_C8_witness :
    ((Token.parseOllamaLine {} (Token.OllamaLine.obj true "" none 7)).input = 7 ∧
      (Token.parseOllamaLine {}
          (Token.OllamaLine.obj true "" none 7)).totalInput = 0 + 7) ∧
    Token.parseOllamaLine {} (Token.OllamaLine.obj true "" none 0) =
      ({} : Token.St) ∧
    Token.parseOllamaLine {} (Token.OllamaLine.obj false "hi" none 0) =
      Token.countOutput {} ∧
    Token.parseOllamaLine {} (Token.OllamaLine.obj false "" none 0) =
      ({} : Token.St) :=
  ⟨(claim_C8_amended {} "" none 7).2.1 (by decide),
   (claim_C8_amended {} "" none 0).2.2.1 (by decide),
   (claim_C8_amended {} "hi" none 0).2.2.2.1 (Or.inl (by decide)),
   (claim_C8_amended {} "" none 0).2.2.2.2.1 ⟨rfl, fun c hc => by cases hc⟩⟩

/-- Claim C2 (code bug): starting from the state at process start (gate
closed, recovery channel empty), the steps `proxyHandler` executes
before it first waits on the gate leave the recovery channel empty — the
handler contains no `EnsureSetup` step at all — so the ops loop does not
run `doSetup`; whereas the `EnsureSetup` operation the claim (and the
function's own doc comment) requires would have posted the recovery
signal. -/
theorem claim_C2_ensure_setup_not_called :
    (Handler.preWaitSteps.foldl Handler.runHandlerStep
        { gateOpen := false, recoverySignaled := false }).recoverySignaled =
      false ∧
    Handler.HandlerStep.ensureSetup ∉ Handler.proxyHandlerSteps ∧
    Handler.opsLoopRunsSetup
      (Handler.preWaitSteps.foldl Handler.runHandlerStep
        { gateOpen := false, recoverySignaled := false }) = false ∧
    (Handler.ensureSetup
        { gateOpen := false, recoverySignaled := false }).recoverySignaled =
      true := by
  decide

/-- Claim C6: in the peer-verification hook, with at least one presented
certificate, a non-zero pinned fingerprint that differs from the SHA-256
of the presented leaf DER fails verification with the "possible
impersonation" error, while the all-zero sentinel pin skips the
comparison and the hook succeeds. -/
theorem claim_C6_verify_hook (sha256 : Bytes → Bytes) (pinned leaf : Bytes)
    (rest : List Bytes) :
    (pinned ≠ 0 → sha256 leaf ≠ pinned →
      Certs.verifyPeerCertificate sha256 pinned (leaf :: rest) =
        .error "server cert fingerprint mismatch (possible impersonation)") ∧
    (pinned = 0 →
      Certs.verifyPeerCertificate sha256 pinned (leaf :: rest) = .ok ()) := by
  constructor
  · intro h1 h2
    simp [Certs.verifyPeerCertificate, h1, h2]
  · intro h
    subst h
    simp [Certs.verifyPeerCertificate]

/-- Claim C6 (witness): the verification hook evaluated at concrete
inputs for the mismatch case and the unpinned case. -/
theorem claim_C6_witness :
    Certs.verifyPeerCertificate (fun b => b) 5 [3] =
      .error "server cert fingerprint mismatch (possible impersonation)" ∧
    Certs.verifyPeerCertificate (fun b => b) 0 [3] = .ok () :=
  ⟨(claim_C6_verify_hook (fun b => b) 5 3 []).1 (by decide) (by decide),
   (claim_C6_verify_hook (fun b => b) 0 3 []).2 rfl⟩

/-- Claim C10: for every pin value, the peer-verification hook rejects
an empty presented-certificate list with the "no server certificate
presented" error; consequently the hook never succeeds without a server
leaf certificate. -/
theorem claim_C10_empty_certs (sha256 : Bytes → Bytes) (pinned : Bytes) :
    Certs.verifyPeerCertificate sha256 pinned [] =
      .error "no server certificate presented" ∧
    (∀ rawCerts : List Bytes,
      Certs.verifyPeerCertificate sha256 pinned rawCerts = .ok () →
        rawCerts ≠ []) := by
  refine ⟨rfl, ?_⟩
  intro rawCerts h hnil
  subst hnil
  simp [Certs.verifyPeerCertificate] at h

/-- Claim C10 (witness): the hook evaluated at the empty list and at a
succeeding one-element list. -/
theorem claim_C10_witness :
    Certs.verifyPeerCertificate (fun b => b) 0 [] =
      .error "no server certificate presented" ∧
    ([7] : List Bytes) ≠ [] :=
  ⟨(claim_C10_empty_certs (fun b => b) 0).1,
   (claim_C10_empty_certs (fun b => b) 0).2 [7] rfl⟩

/-- `applyDefaults` never touches `project_id`. -/
theorem applyDefaults_projectID (c : Cfg.Config) :
    (Cfg.applyDefaults c).projectID = c.projectID := rfl

/-- `applyDefaults` fills an empty zone with "us-central1-a" and keeps a
non-empty zone unchanged. -/
theorem applyDefaults_zone (c : Cfg.Config) :
    (Cfg.applyDefaults c).zone =
      (if c.zone = "" then "us-central1-a" else c.zone) := rfl

/-- After `applyDefaults` the zone is never empty. -/
theorem applyDefaults_zone_ne (c : Cfg.Config) :
    (Cfg.applyDefaults c).zone ≠ "" := by
  rw [applyDefaults_zone]
  split
  · decide
  · assumption

/-- Claim C9 (counterexample): a configuration file that omits `zone`
(and everything else except `project_id`) does not make `loadConfig`
fail: `applyDefaults` runs before the required-field check and fills the
zone with "us-central1-a", so the zone requirement is unreachable. -/
theorem claim_C9_counterexample :
    ({ projectID := "p" } : Cfg.Config).zone = "" ∧
    Cfg.loadConfig (.parsed { projectID := "p" }) =
      .ok (Cfg.applyDefaults { projectID := "p" }) ∧
    (Cfg.applyDefaults { projectID := "p" }).zone = "us-central1-a" := by
  refine ⟨rfl, ?_, by decide⟩
  simp [Cfg.loadConfig, applyDefaults_projectID]
  decide

/-- Claim C9 (amended): `loadConfig` fails exactly when the file is
missing, when it fails to parse, or when `project_id` is empty after
decoding; a missing `zone` never causes an error because
`applyDefaults` fills it (with "us-central1-a") before the
required-field check, and with `project_id` present `loadConfig`
succeeds regardless of which other fields are missing — including
`zone` — returning the config with every missing field defaulted. -/
theorem claim_C9_amended (c : Cfg.Config) :
    Cfg.loadConfig .missingFile = .error "config not found" ∧
    Cfg.loadConfig .parseError = .error "failed to parse config" ∧
    (c.projectID = "" →
      Cfg.loadConfig (.parsed c) =
        .error "config must include project_id and zone") ∧
    (c.projectID ≠ "" →
      Cfg.loadConfig (.parsed c) = .ok (Cfg.applyDefaults c)) ∧
    (Cfg.applyDefaults c).zone ≠ "" ∧
    (Cfg.applyDefaults c).projectID = c.projectID ∧
    Cfg.applyDefaults { projectID := "p" } =
      { projectID := "p"
        zone := "us-central1-a"
        vmName := "private-llm-vm"
        network := "private-llm"
        region := "us-central1"
        machineType := "g4-standard-48"
        defaultModel := "qwen3-coder-next:q8_0"
        contextLength := 262144
        idleTimeout := 300
        subnetCIDR := "10.10.0.0/24" } := by
  refine ⟨rfl, rfl, ?_, ?_, applyDefaults_zone_ne c, applyDefaults_projectID c, ?_⟩
  · intro h
    simp [Cfg.loadConfig, applyDefaults_projectID, h]
  · intro h
    simp [Cfg.loadConfig, applyDefaults_projectID, h, applyDefaults_zone_ne c]
  · decide

/-- Claim C9 (witness): `loadConfig` evaluated at concrete configs with
and without `project_id`, discharging each hypothesis. -/
theorem claim_C9_witness :
    Cfg.loadConfig (.parsed ({ zone := "z" } : Cfg.Config)) =
      .error "config must include project_id and zone" ∧
    Cfg.loadConfig (.parsed ({ projectID := "p" } : Cfg.Config)) =
      .ok (Cfg.applyDefaults { projectID := "p" }) :=
  ⟨(claim_C9_amended { zone := "z" }).2.2.1 rfl,
   (claim_C9_amended { projectID := "p" }).2.2.2.1 (by decide)⟩

/-- After `closeGate` the gate is closed, for any state satisfying the
freshness invariant: when the gate was open a fresh (never-closed)
channel is installed, and when it was closed nothing changes. -/
theorem gate_closed_after_close (s : Gate.GateState) (hF : Gate.Fresh s) :
    Gate.gateOpen (Gate.closeGate s) = false := by
  by_cases h : s.chanClosed s.cur = true
  · simp only [Gate.closeGate, Gate.gateOpen, h, if_true]
    exact hF (s.cur + 1) (Nat.lt_succ_self _)
  · simp only [Gate.closeGate, Gate.gateOpen, h, if_false]
    simp at h
    exact h

/-- A sequence of writer operations containing no `open` leaves a closed
gate state completely unchanged: `closeGate` on a closed gate is the
identity. -/
theorem closes_preserve (t : Gate.GateState) (L : List Gate.GateOp)
    (hL : ∀ op ∈ L, op ≠ Gate.GateOp.opOpen)
    (h : Gate.gateOpen t = false) : Gate.applyOps t L = t := by
  induction L with
  | nil => rfl
  | cons op ops ih =>
    have hop : op = Gate.GateOp.opClose := by
      cases op
      · exact absurd rfl (hL _ (List.mem_cons_self _ _))
      · rfl
    subst hop
    have hclose : Gate.closeGate t = t := by
      simp only [Gate.gateOpen] at h
      simp [Gate.closeGate, h]
    simp only [Gate.applyOps, List.foldl_cons, Gate.applyOp, hclose]
    exact ih fun op hm => hL op (List.mem_cons_of_mem _ hm)

/-- Claim C4: the gate operations satisfy the claimed algebra — `open`
on an open gate is a no-op; `close` on a closed gate is a no-op; `close`
on an open gate installs a fresh channel object in the closed state; a
`wait` that captured the channel installed by that `close` stays blocked
across any further writer activity that contains no `open`, returns the
cancellation outcome when the caller's context is done, and becomes
ready as soon as a subsequent `open` runs. -/
theorem claim_C4_gate_algebra (s : Gate.GateState) (hF : Gate.Fresh s)
    (L : List Gate.GateOp) (hL : ∀ op ∈ L, op ≠ Gate.GateOp.opOpen)
    (c : Bool) :
    (Gate.gateOpen s = true → Gate.openGate s = s) ∧
    (Gate.gateOpen s = false → Gate.closeGate s = s) ∧
    (Gate.gateOpen s = true →
      Gate.gateOpen (Gate.closeGate s) = false ∧
      (Gate.closeGate s).cur ≠ s.cur) ∧
    Gate.waitStep (Gate.applyOps (Gate.closeGate s) L)
        (Gate.closeGate s).cur false = Gate.WaitOutcome.blocked ∧
    Gate.waitStep (Gate.applyOps (Gate.closeGate s) L)
        (Gate.closeGate s).cur true = Gate.WaitOutcome.cancelled ∧
    Gate.waitStep
        (Gate.openGate (Gate.applyOps (Gate.closeGate s) L))
        (Gate.closeGate s).cur c = Gate.WaitOutcome.ready := by
  have hclosed : Gate.gateOpen (Gate.closeGate s) = false :=
    gate_closed_after_close s hF
  have happ : Gate.applyOps (Gate.closeGate s) L = Gate.closeGate s :=
    closes_preserve _ L hL hclosed
  have hcap : (Gate.closeGate s).chanClosed (Gate.closeGate s).cur = false := by
    simpa [Gate.gateOpen] using hclosed
  refine ⟨?_, ?_, ?_, ?_, ?_, ?_⟩
  · intro h
    simp only [Gate.gateOpen] at h
    simp [Gate.openGate, h]
  · intro h
    simp only [Gate.gateOpen] at h
    simp [Gate.closeGate, h]
  · intro h
    refine ⟨hclosed, ?_⟩
    simp only [Gate.gateOpen] at h
    simp [Gate.closeGate, h]
  · rw [happ]
    simp [Gate.waitStep, hcap]
  · rw [happ]
    simp [Gate.waitStep, hcap]
  · rw [happ]
    simp [Gate.openGate, Gate.waitStep, hcap]

/-- Claim C4 (witness): the gate algebra evaluated on the concrete state
obtained by opening the initial gate, then closing it and running one
redundant extra `close`. -/
theorem claim_C4_witness :
    Gate.waitStep
        (Gate.applyOps (Gate.closeGate (Gate.openGate Gate.initGate))
          [Gate.GateOp.opClose])
        (Gate.closeGate (Gate.openGate Gate.initGate)).cur false =
      Gate.WaitOutcome.blocked ∧
    Gate.waitStep
        (Gate.openGate
          (Gate.applyOps (Gate.closeGate (Gate.openGate Gate.initGate))
            [Gate.GateOp.opClose]))
        (Gate.closeGate (Gate.openGate Gate.initGate)).cur true =
      Gate.WaitOutcome.ready :=
  ⟨(claim_C4_gate_algebra (Gate.openGate Gate.initGate)
      (by intro n hn; simp [Gate.openGate, Gate.initGate]; omega)
      [Gate.GateOp.opClose] (by decide) true).2.2.2.1,
   (claim_C4_gate_algebra (Gate.openGate Gate.initGate)
      (by intro n hn; simp [Gate.openGate, Gate.initGate]; omega)
      [Gate.GateOp.opClose] (by decide) true).2.2.2.2.2⟩

/-- Claim C5: after every successful `rotateCerts` run, the in-memory
pinned fingerprint equals the SHA-256 of the DER of the server leaf
certificate generated during that rotation — the very value the
credential cache's verification hook compares against, so the rotated
leaf passes the hook — and the effect trace shows the pin installed
strictly before the client certificate, client key and bearer token are
written to the local cert store. -/
theorem claim_C5_rotation_pin (sha256 : Bytes → Bytes) (env : Rotation.REnv)
    (s r : Rotation.RotState) (serverCertPem : Rotation.Pem)
    (serverKey : Bytes)
    (hgen : env.serverGen = .ok (serverCertPem, serverKey))
    (hrun : Rotation.rotateCerts sha256 env s = (r, none)) :
    r.pinned = sha256 serverCertPem.der ∧
    Certs.verifyPeerCertificate sha256 r.pinned [serverCertPem.der] =
      .ok () ∧
    r.trace = s.trace ++
      [Rotation.RotStep.pinInstall,
       Rotation.RotStep.writeLocal "client.crt",
       Rotation.RotStep.writeLocal "client.key",
       Rotation.RotStep.writeLocal "token",
       Rotation.RotStep.writeSecretVersion "private-llm-server-cert",
       Rotation.RotStep.writeSecretVersion "private-llm-server-key",
       Rotation.RotStep.writeSecretVersion "private-llm-ca-cert",
       Rotation.RotStep.writeSecretVersion "private-llm-internal-token",
       Rotation.RotStep.invalidateCache] ∧
    r.tlsCacheValid = false := by
  unfold Rotation.rotateCerts at hrun
  rcases hdir : env.dirOk with e | u
  · simp only [hdir] at hrun
    simp at hrun
  simp only [hdir] at hrun
  rcases hca : env.ca with e | p
  · simp only [hca] at hrun
    simp at hrun
  simp only [hca] at hrun
  simp only [hgen] at hrun
  simp only [Rotation.pemDecode] at hrun
  rcases hcg : env.clientGen with e | q
  · simp only [hcg] at hrun
    simp at hrun
  simp only [hcg] at hrun
  rcases htok : env.tokenGen with e | token
  · simp only [htok] at hrun
    simp at hrun
  simp only [htok] at hrun
  rcases hw1 : env.writeClientCrt with e | u1
  · simp only [Rotation.writeLocalFile, hw1] at hrun
    simp at hrun
  simp only [Rotation.writeLocalFile, hw1] at hrun
  rcases hw2 : env.writeClientKey with e | u2
  · simp only [Rotation.writeLocalFile, hw2] at hrun
    simp at hrun
  simp only [Rotation.writeLocalFile, hw2] at hrun
  rcases hw3 : env.writeToken with e | u3
  · simp only [Rotation.writeLocalFile, hw3] at hrun
    simp at hrun
  simp only [Rotation.writeLocalFile, hw3] at hrun
  rcases hsm : env.smClient with e | u4
  · simp only [hsm] at hrun
    simp at hrun
  simp only [hsm] at hrun
  rcases hs1 : env.writeSecret "private-llm-server-cert" with e | v1
  · simp only [Rotation.writeSecrets, Rotation.writeSecretVersion, hs1]
      at hrun
    simp at hrun
  rcases hs2 : env.writeSecret "private-llm-server-key" with e | v2
  · simp only [Rotation.writeSecrets, Rotation.writeSecretVersion, hs1, hs2]
      at hrun
    simp at hrun
  rcases hs3 : env.writeSecret "private-llm-ca-cert" with e | v3
  · simp only [Rotation.writeSecrets, Rotation.writeSecretVersion, hs1, hs2,
      hs3] at hrun
    simp at hrun
  rcases hs4 : env.writeSecret "private-llm-internal-token" with e | v4
  · simp only [Rotation.writeSecrets, Rotation.writeSecretVersion, hs1, hs2,
      hs3, hs4] at hrun
    simp at hrun
  simp only [Rotation.writeSecrets, Rotation.writeSecretVersion, hs1, hs2,
    hs3, hs4] at hrun
  have hr := congrArg Prod.fst hrun
  simp only at hr
  subst hr
  refine ⟨rfl, ?_, ?_, rfl⟩
  · simp [Certs.verifyPeerCertificate]
  · simp

/-- Claim C5 (witness): a fully successful rotation evaluated on a
concrete environment, discharging both hypotheses. -/
theorem claim_C5_witness :
    ((Rotation.rotateCerts (fun b => b + 100)
        { dirOk := .ok (), ca := .ok (1, 2), serverGen := .ok (⟨3⟩, 4),
          clientGen := .ok (5, 6), tokenGen := .ok 7,
          writeClientCrt := .ok (), writeClientKey := .ok (),
          writeToken := .ok (), smClient := .ok (),
          writeSecret := fun _ => .ok () }
        { pinned := 0, localFiles := fun _ => none, tlsCacheValid := true,
          trace := [] }).1).pinned = (fun b => b + 100) 3 ∧
    ((Rotation.rotateCerts (fun b => b + 100)
        { dirOk := .ok (), ca := .ok (1, 2), serverGen := .ok (⟨3⟩, 4),
          clientGen := .ok (5, 6), tokenGen := .ok 7,
          writeClientCrt := .ok (), writeClientKey := .ok (),
          writeToken := .ok (), smClient := .ok (),
          writeSecret := fun _ => .ok () }
        { pinned := 0, localFiles := fun _ => none, tlsCacheValid := true,
          trace := [] }).1).trace = [] ++
      [Rotation.RotStep.pinInstall,
       Rotation.RotStep.writeLocal "client.crt",
       Rotation.RotStep.writeLocal "client.key",
       Rotation.RotStep.writeLocal "token",
       Rotation.RotStep.writeSecretVersion "private-llm-server-cert",
       Rotation.RotStep.writeSecretVersion "private-llm-server-key",
       Rotation.RotStep.writeSecretVersion "private-llm-ca-cert",
       Rotation.RotStep.writeSecretVersion "private-llm-internal-token",
       Rotation.RotStep.invalidateCache] := by
  have h := claim_C5_rotation_pin (fun b => b + 100)
    { dirOk := .ok (), ca := .ok (1, 2), serverGen := .ok (⟨3⟩, 4),
      clientGen := .ok (5, 6), tokenGen := .ok 7,
      writeClientCrt := .ok (), writeClientKey := .ok (),
      writeToken := .ok (), smClient := .ok (),
      writeSecret := fun _ => .ok () }
    { pinned := 0, localFiles := fun _ => none, tlsCacheValid := true,
      trace := [] }
    ((Rotation.rotateCerts (fun b => b + 100)
        { dirOk := .ok (), ca := .ok (1, 2), serverGen := .ok (⟨3⟩, 4),
          clientGen := .ok (5, 6), tokenGen := .ok 7,
          writeClientCrt := .ok (), writeClientKey := .ok (),
          writeToken := .ok (), smClient := .ok (),
          writeSecret := fun _ => .ok () }
        { pinned := 0, localFiles := fun _ => none, tlsCacheValid := true,
          trace := [] }).1)
    ⟨3⟩ 4 rfl rfl
  exact ⟨h.1, h.2.2.1⟩

/-- Claim C3 (counterexample): with a cached VM IP present and a closed
gate, a failing VM status check — a step of `doSetup` returning an
error — makes `doSetup` return with the gate OPEN (it optimistically
keeps using the cached IP), contradicting the claim that the readiness
gate is closed whenever a step of an ops-loop action fails, and in
particular that `doSetup` returns with the gate still closed whenever
its VM status check fails. -/
theorem claim_C3_counterexample :
    (Infra.doSetup
        { vmStoppedCached := .error "status check failed",
          vmStoppedMain := .ok true, firewall := .ok (), rotate := .ok (),
          vmStart := .ok "10.0.0.2", stop := .ok (), delete := .ok (),
          infraUp := .ok () }
        { gateOpen := false, vmIP := "10.0.0.1", rotatedOnce := false,
          proxyReady := true, tlsCacheValid := true,
          firewallActive := true }).state.gateOpen = true := by
  decide

/-- When the gate is closed at entry, the main path of `doSetup` reaches
an open gate only by full success: the VM start succeeded, its IP was
cached and the proxy was marked ready. -/
theorem doSetupMain_gate (env : Infra.Env) (s : Infra.InfraState)
    (pre : List Infra.OpStep) (h : s.gateOpen = false)
    (hopen : (Infra.doSetupMain env s pre).state.gateOpen = true) :
    ∃ ip, env.vmStart = .ok ip ∧
      (Infra.doSetupMain env s pre).state.vmIP = ip ∧
      (Infra.doSetupMain env s pre).state.proxyReady = true := by
  unfold Infra.doSetupMain at hopen ⊢
  rcases hfw : env.firewall with e | u
  · simp only [hfw] at hopen
    simp [h] at hopen
  simp only [hfw] at hopen ⊢
  rcases hvm : env.vmStoppedMain with e | needsStart
  · simp only [hvm] at hopen
    simp [h] at hopen
  simp only [hvm] at hopen ⊢
  by_cases hns : (needsStart && !s.rotatedOnce) = true
  · simp only [hns, if_true] at hopen ⊢
    rcases hrot : env.rotate with e | u2
    · simp only [hrot] at hopen
      simp [h] at hopen
    simp only [hrot] at hopen ⊢
    rcases hvs : env.vmStart with e | ip
    · simp only [hvs] at hopen
      simp [h] at hopen
    simp only [hvs]
    exact ⟨ip, rfl, by simp [Infra.openGate], by simp [Infra.openGate]⟩
  · simp only [hns] at hopen ⊢
    simp only [if_false, Bool.false_eq_true] at hopen ⊢
    rcases hvs : env.vmStart with e | ip
    · simp only [hvs] at hopen
      simp [h] at hopen
    simp only [hvs]
    exact ⟨ip, rfl, by simp [Infra.openGate], by simp [Infra.openGate]⟩

/-- Claim C3 (amended): every ops-loop action aborts at its first
failing step — when an action returns an error, its step trace ends at
the step whose underlying call failed, every earlier step succeeded, and
no step is attempted twice (all traces are duplicate-free).  The gate on
an error return is as the code leaves it: `doStopVM`, `doRestartVM` and
`doResetVM` close the gate on entry and return with it closed;
`doStartVM` performs no gate transition and returns with the gate in its
entry state; `doSetup`, entered with the gate closed, returns with the
gate open only when every step up to and including the VM start
succeeded — except on the cached-IP path, where a failing (or
stopped-VM-negative) status check opens the gate and returns, relying on
the cached IP. -/
theorem claim_C3_amended (env : Infra.Env) (s : Infra.InfraState)
    (e : String) :
    ((Infra.doStopVM env s).err = some e →
      ∃ pre t, (Infra.doStopVM env s).steps = pre ++ [t] ∧
        Infra.oracleOf env t = .error e ∧
        ∀ t2 ∈ pre, Infra.exceptOk (Infra.oracleOf env t2) = true) ∧
    ((Infra.doStartVM env s).err = some e →
      ∃ pre t, (Infra.doStartVM env s).steps = pre ++ [t] ∧
        Infra.oracleOf env t = .error e ∧
        ∀ t2 ∈ pre, Infra.exceptOk (Infra.oracleOf env t2) = true) ∧
    ((Infra.doRestartVM env s).err = some e →
      ∃ pre t, (Infra.doRestartVM env s).steps = pre ++ [t] ∧
        Infra.oracleOf env t = .error e ∧
        ∀ t2 ∈ pre, Infra.exceptOk (Infra.oracleOf env t2) = true) ∧
    ((Infra.doResetVM env s).err = some e →
      ∃ pre t, (Infra.doResetVM env s).steps = pre ++ [t] ∧
        Infra.oracleOf env t = .error e ∧
        ∀ t2 ∈ pre, Infra.exceptOk (Infra.oracleOf env t2) = true) ∧
    ((Infra.doStopVM env s).err.isSome →
      (Infra.doStopVM env s).state.gateOpen = false) ∧
    ((Infra.doRestartVM env s).err.isSome →
      (Infra.doRestartVM env s).state.gateOpen = false) ∧
    ((Infra.doResetVM env s).err.isSome →
      (Infra.doResetVM env s).state.gateOpen = false) ∧
    ((Infra.doStartVM env s).err.isSome →
      (Infra.doStartVM env s).state.gateOpen = s.gateOpen) ∧
    (s.gateOpen = false → (Infra.doSetup env s).state.gateOpen = true →
      (s.vmIP ≠ "" ∧
        ((∃ msg, env.vmStoppedCached = .error msg) ∨
          env.vmStoppedCached = .ok false)) ∨
      (∃ ip, env.vmStart = .ok ip ∧
        (Infra.doSetup env s).state.vmIP = ip ∧
        (Infra.doSetup env s).state.proxyReady = true)) ∧
    (Infra.doSetup env s).steps.Nodup ∧
    (Infra.doStopVM env s).steps.Nodup ∧
    (Infra.doStartVM env s).steps.Nodup ∧
    (Infra.doRestartVM env s).steps.Nodup ∧
    (Infra.doResetVM env s).steps.Nodup := by
  refine ⟨?_, ?_, ?_, ?_, ?_, ?_, ?_, ?_, ?_, ?_, ?_, ?_, ?_, ?_⟩
  · intro h
    rcases hstop : env.stop with e2 | u
    · simp only [Infra.doStopVM, hstop] at h ⊢
      simp only [Option.some.injEq] at h
      exact ⟨[], .vmStop, rfl,
        by simp [Infra.oracleOf, hstop, h], by simp⟩
    · simp [Infra.doStopVM, hstop] at h
  · intro h
    rcases hfw : env.firewall with e2 | u
    · simp only [Infra.doStartVM, hfw] at h ⊢
      simp only [Option.some.injEq] at h
      exact ⟨[], .firewallOpen, rfl,
        by simp [Infra.oracleOf, hfw, h], by simp⟩
    · rcases hvs : env.vmStart with e2 | ip
      · simp only [Infra.doStartVM, hfw, hvs] at h ⊢
        simp only [Option.some.injEq] at h
        refine ⟨[.firewallOpen], .vmStart, rfl,
          by simp [Infra.oracleOf, Except.map, hvs, h], ?_⟩
        intro t2 ht2
        simp only [List.mem_singleton] at ht2
        subst ht2
        simp [Infra.oracleOf, Infra.exceptOk, hfw]
      · simp [Infra.doStartVM, hfw, hvs] at h
  · intro h
    rcases hstop : env.stop with e2 | u
    · simp only [Infra.doRestartVM, hstop] at h ⊢
      simp only [Option.some.injEq] at h
      exact ⟨[], .vmStop, rfl,
        by simp [Infra.oracleOf, hstop, h], by simp⟩
    rcases hrot : env.rotate with e2 | u2
    · simp only [Infra.doRestartVM, hstop, hrot] at h ⊢
      simp only [Option.some.injEq] at h
      refine ⟨[.vmStop], .certRotation, rfl,
        by simp [Infra.oracleOf, hrot, h], ?_⟩
      intro t2 ht2
      simp only [List.mem_singleton] at ht2
      subst ht2
      simp [Infra.oracleOf, Infra.exceptOk, hstop]
    rcases hfw : env.firewall with e2 | u3
    · simp only [Infra.doRestartVM, hstop, hrot, hfw] at h ⊢
      simp only [Option.some.injEq] at h
      refine ⟨[.vmStop, .certRotation], .firewallOpen, rfl,
        by simp [Infra.oracleOf, hfw, h], ?_⟩
      intro t2 ht2
      simp only [List.mem_cons, List.not_mem_nil, or_false] at ht2
      rcases ht2 with rfl | rfl
      · simp [Infra.oracleOf, Infra.exceptOk, hstop]
      · simp [Infra.oracleOf, Infra.exceptOk, hrot]
    rcases hvs : env.vmStart with e2 | ip
    · simp only [Infra.doRestartVM, hstop, hrot, hfw, hvs] at h ⊢
      simp only [Option.some.injEq] at h
      refine ⟨[.vmStop, .certRotation, .firewallOpen], .vmStart, rfl,
        by simp [Infra.oracleOf, Except.map, hvs, h], ?_⟩
      intro t2 ht2
      simp only [List.mem_cons, List.not_mem_nil, or_false] at ht2
      rcases ht2 with rfl | rfl | rfl
      · simp [Infra.oracleOf, Infra.exceptOk, hstop]
      · simp [Infra.oracleOf, Infra.exceptOk, hrot]
      · simp [Infra.oracleOf, Infra.exceptOk, hfw]
    · simp [Infra.doRestartVM, hstop, hrot, hfw, hvs] at h
  · intro h
    rcases hdel : env.delete with e2 | u
    · simp only [Infra.doResetVM, hdel] at h ⊢
      simp only [Option.some.injEq] at h
      exact ⟨[], .vmDelete, rfl,
        by simp [Infra.oracleOf, hdel, h], by simp⟩
    rcases hrot : env.rotate with e2 | u2
    · simp only [Infra.doResetVM, hdel, hrot] at h ⊢
      simp only [Option.some.injEq] at h
      refine ⟨[.vmDelete], .certRotation, rfl,
        by simp [Infra.oracleOf, hrot, h], ?_⟩
      intro t2 ht2
      simp only [List.mem_singleton] at ht2
      subst ht2
      simp [Infra.oracleOf, Infra.exceptOk, hdel]
    rcases hup : env.infraUp with e2 | u3
    · simp only [Infra.doResetVM, hdel, hrot, hup] at h ⊢
      simp only [Option.some.injEq] at h
      refine ⟨[.vmDelete, .certRotation], .infraUp, rfl,
        by simp [Infra.oracleOf, hup, h], ?_⟩
      intro t2 ht2
      simp only [List.mem_cons, List.not_mem_nil, or_false] at ht2
      rcases ht2 with rfl | rfl
      · simp [Infra.oracleOf, Infra.exceptOk, hdel]
      · simp [Infra.oracleOf, Infra.exceptOk, hrot]
    · simp [Infra.doResetVM, hdel, hrot, hup] at h
  · intro h
    rcases hstop : env.stop with e2 | u <;>
      simp [Infra.doStopVM, Infra.closeGate, hstop] at h ⊢
  · intro h
    rcases hstop : env.stop with e2 | u <;>
      rcases hrot : env.rotate with e3 | u2 <;>
      rcases hfw : env.firewall with e4 | u3 <;>
      rcases hvs : env.vmStart with e5 | ip <;>
      simp [Infra.doRestartVM, Infra.closeGate, hstop, hrot, hfw, hvs]
        at h ⊢
  · intro h
    rcases hdel : env.delete with e2 | u <;>
      rcases hrot : env.rotate with e3 | u2 <;>
      rcases hup : env.infraUp with e4 | u3 <;>
      simp [Infra.doResetVM, Infra.closeGate, hdel, hrot, hup] at h ⊢
  · intro h
    rcases hfw : env.firewall with e2 | u <;>
      rcases hvs : env.vmStart with e3 | ip <;>
      simp [Infra.doStartVM, hfw, hvs] at h ⊢
  · intro hg hopen
    by_cases hip : s.vmIP = ""
    · right
      have hbne : (s.vmIP != "") = false := by simp [hip]
      simp only [Infra.doSetup, hbne, Bool.false_eq_true, if_false]
        at hopen ⊢
      exact doSetupMain_gate env s [] hg hopen
    · have hbne : (s.vmIP != "") = true := by simp [hip]
      simp only [Infra.doSetup, hbne, if_true] at hopen ⊢
      rcases hvc : env.vmStoppedCached with e2 | stopped
      · exact Or.inl ⟨hip, Or.inl ⟨e2, rfl⟩⟩
      · cases stopped with
        | false => exact Or.inl ⟨hip, Or.inr rfl⟩
        | true =>
          right
          simp only [hvc] at hopen ⊢
          exact doSetupMain_gate env (Infra.resetProxyState s) _
            (by simp [Infra.resetProxyState]) hopen
  · unfold Infra.doSetup Infra.doSetupMain
    (repeat' split) <;> simp
  · unfold Infra.doStopVM
    (repeat' split) <;> simp
  · unfold Infra.doStartVM
    (repeat' split) <;> simp
  · unfold Infra.doRestartVM
    (repeat' split) <;> simp
  · unfold Infra.doResetVM
    (repeat' split) <;> simp

/-- Claim C3 (witness): the amended abort/gate properties evaluated on a
concrete environment whose certificate rotation fails during a restart
action. -/
theorem claim_C3_witness :
    (∃ pre t,
      (Infra.doRestartVM
          { vmStoppedCached := .ok true, vmStoppedMain := .ok true,
            firewall := .ok (), rotate := .error "rotation failed",
            vmStart := .ok "10.0.0.2", stop := .ok (), delete := .ok (),
            infraUp := .ok () }
          { gateOpen := true, vmIP := "", rotatedOnce := false,
            proxyReady := false, tlsCacheValid := true,
            firewallActive := false }).steps = pre ++ [t] ∧
        Infra.oracleOf
          { vmStoppedCached := .ok true, vmStoppedMain := .ok true,
            firewall := .ok (), rotate := .error "rotation failed",
            vmStart := .ok "10.0.0.2", stop := .ok (), delete := .ok (),
            infraUp := .ok () } t = .error "rotation failed" ∧
        ∀ t2 ∈ pre,
          Infra.exceptOk
            (Infra.oracleOf
              { vmStoppedCached := .ok true, vmStoppedMain := .ok true,
                firewall := .ok (), rotate := .error "rotation failed",
                vmStart := .ok "10.0.0.2", stop := .ok (), delete := .ok (),
                infraUp := .ok () } t2) = true) ∧
    (Infra.doRestartVM
        { vmStoppedCached := .ok true, vmStoppedMain := .ok true,
          firewall := .ok (), rotate := .error "rotation failed",
          vmStart := .ok "10.0.0.2", stop := .ok (), delete := .ok (),
          infraUp := .ok () }
        { gateOpen := true, vmIP := "", rotatedOnce := false,
          proxyReady := false, tlsCacheValid := true,
          firewallActive := false }).state.gateOpen = false :=
  ⟨(claim_C3_amended
      { vmStoppedCached := .ok true, vmStoppedMain := .ok true,
        firewall := .ok (), rotate := .error "rotation failed",
        vmStart := .ok "10.0.0.2", stop := .ok (), delete := .ok (),
        infraUp := .ok () }
      { gateOpen := true, vmIP := "", rotatedOnce := false,
        proxyReady := false, tlsCacheValid := true,
        firewallActive := false } "rotation failed").2.2.1 (by decide),
   (claim_C3_amended
      { vmStoppedCached := .ok true, vmStoppedMain := .ok true,
        firewall := .ok (), rotate := .error "rotation failed",
        vmStart := .ok "10.0.0.2", stop := .ok (), delete := .ok (),
        infraUp := .ok () }
      { gateOpen := true, vmIP := "", rotatedOnce := false,
        proxyReady := false, tlsCacheValid := true,
        firewallActive := false } "rotation failed").2.2.2.2.2.1
    (by decide)⟩

/-- Repeated `Header.Add` of a value list onto the key itself appends
the values in order. -/
theorem headerAddList_self (k : String) (vs : List String)
    (a : Headers.Header) :
    (vs.foldl (fun h v => Headers.headerAdd h k v) a) k = a k ++ vs := by
  induction vs generalizing a with
  | nil => simp
  | cons v vs ih =>
    simp only [List.foldl_cons, ih, Headers.headerAdd]
    simp

/-- Repeated `Header.Add` on one key leaves every other key unchanged. -/
theorem headerAddList_other (k x : String) (hx : x ≠ k) (vs : List String)
    (a : Headers.Header) :
    (vs.foldl (fun h v => Headers.headerAdd h k v) a) x = a x := by
  induction vs generalizing a with
  | nil => rfl
  | cons v vs ih =>
    simp only [List.foldl_cons, ih, Headers.headerAdd]
    simp [hx]

/-- The copy loop leaves keys outside the iterated key set untouched. -/
theorem copyFold_notmem (inbound : Headers.Header) (keys : List String)
    (acc : Headers.Header) (x : String) (hx : x ∉ keys) :
    (keys.foldl (Headers.copyStep inbound) acc) x = acc x := by
  induction keys generalizing acc with
  | nil => rfl
  | cons k ks ih =>
    simp only [List.foldl_cons]
    have hxk : x ≠ k := fun h => hx (h ▸ List.mem_cons_self k ks)
    have hxs : x ∉ ks := fun h => hx (List.mem_cons_of_mem k h)
    rw [ih _ hxs]
    simp only [Headers.copyStep]
    split
    · rfl
    · exact headerAddList_other k x hxk _ acc

/-- The copy loop never writes the `Authorization` key. -/
theorem copyFold_auth (inbound : Headers.Header) (keys : List String)
    (acc : Headers.Header) :
    (keys.foldl (Headers.copyStep inbound) acc) "Authorization" =
      acc "Authorization" := by
  induction keys generalizing acc with
  | nil => rfl
  | cons k ks ih =>
    simp only [List.foldl_cons]
    rw [ih]
    simp only [Headers.copyStep]
    split
    · rfl
    · rename_i hne
      exact headerAddList_other k "Authorization" (fun h => hne h.symm) _ acc

/-- The copy loop reproduces the inbound values of every
non-`Authorization` key of the (duplicate-free) key set. -/
theorem copyFold_mem (inbound : Headers.Header) (keys : List String)
    (acc : Headers.Header) (x : String) (hmem : x ∈ keys)
    (hnd : keys.Nodup) (hauth : x ≠ "Authorization") (hacc : acc x = []) :
    (keys.foldl (Headers.copyStep inbound) acc) x = inbound x := by
  induction keys generalizing acc with
  | nil => cases hmem
  | cons k ks ih =>
    simp only [List.foldl_cons]
    rcases List.nodup_cons.mp hnd with ⟨hk, hks⟩
    by_cases hxk : x = k
    · subst hxk
      rw [copyFold_notmem inbound ks _ x hk]
      simp only [Headers.copyStep, if_neg hauth]
      rw [headerAddList_self, hacc]
      simp
    · have hstep : (Headers.copyStep inbound acc k) x = acc x := by
        simp only [Headers.copyStep]
        split
        · rfl
        · exact headerAddList_other k x hxk _ acc
      have hx2 : x ∈ ks := by
        rcases List.mem_cons.mp hmem with h | h
        · exact absurd h hxk
        · exact h
      exact ih _ hx2 hks (hstep.trans hacc)

/-- The copy loop reads the inbound header only at non-`Authorization`
keys, so two inbound headers agreeing off `Authorization` copy
identically. -/
theorem copyFold_noninterference (keys : List String)
    (h1 h2 : Headers.Header) (acc : Headers.Header)
    (hagree : ∀ x, x ≠ "Authorization" → h1 x = h2 x) :
    keys.foldl (Headers.copyStep h1) acc =
      keys.foldl (Headers.copyStep h2) acc := by
  induction keys generalizing acc with
  | nil => rfl
  | cons k ks ih =>
    simp only [List.foldl_cons]
    have hstep : Headers.copyStep h1 acc k = Headers.copyStep h2 acc k := by
      simp only [Headers.copyStep]
      split
      · rfl
      · rename_i hne
        rw [hagree k hne]
    rw [hstep, ih]

/-- Claim C7: the upstream request built by `proxyHandler` carries
exactly `Authorization: Bearer <internal token>` and host
"private-llm-server", independently of the inbound `Authorization`
header; every other inbound header key is copied unchanged; and two
inbound requests identical except for their `Authorization` values
produce identical upstream header sets. -/
theorem claim_C7_header_rewrite (keys : List String)
    (inbound : Headers.Header) (token : String) :
    (Headers.buildUpstreamReq keys inbound token).headers "Authorization" =
      ["Bearer " ++ token] ∧
    (Headers.buildUpstreamReq keys inbound token).host =
      "private-llm-server" ∧
    (∀ k, k ≠ "Authorization" → k ∈ keys → keys.Nodup →
      (Headers.buildUpstreamReq keys inbound token).headers k = inbound k) ∧
    (∀ k, k ∉ keys → k ≠ "Authorization" →
      (Headers.buildUpstreamReq keys inbound token).headers k = []) ∧
    (∀ inbound₂, (∀ k, k ≠ "Authorization" → inbound₂ k = inbound k) →
      Headers.buildUpstreamReq keys inbound₂ token =
        Headers.buildUpstreamReq keys inbound token) := by
  refine ⟨?_, rfl, ?_, ?_, ?_⟩
  · simp [Headers.buildUpstreamReq, Headers.headerSet]
  · intro k hk hmem hnd
    simp only [Headers.buildUpstreamReq, Headers.headerSet,
      Headers.copyHeaders]
    rw [if_neg hk]
    exact copyFold_mem inbound keys _ k hmem hnd hk rfl
  · intro k hmem hk
    simp only [Headers.buildUpstreamReq, Headers.headerSet,
      Headers.copyHeaders]
    rw [if_neg hk]
    exact copyFold_notmem inbound keys _ k hmem
  · intro inbound₂ hagree
    simp only [Headers.buildUpstreamReq, Headers.copyHeaders]
    rw [copyFold_noninterference keys inbound₂ inbound _ hagree]

/-- Claim C7 (witness): the upstream request construction evaluated on a
concrete inbound header set carrying `Content-Type` and a caller
`Authorization` header. -/
theorem claim_C7_witness :
    (Headers.buildUpstreamReq ["Content-Type", "Authorization"]
        (fun k =>
          if k = "Content-Type" then ["application/json"]
          else if k = "Authorization" then ["Bearer user-key"] else [])
        "tok").headers "Content-Type" =
      (fun k =>
          if k = "Content-Type" then ["application/json"]
          else if k = "Authorization" then ["Bearer user-key"] else [])
        "Content-Type" ∧
    (Headers.buildUpstreamReq ["Content-Type", "Authorization"]
        (fun k =>
          if k = "Content-Type" then ["application/json"]
          else if k = "Authorization" then ["Bearer user-key"] else [])
        "tok").headers "Authorization" = ["Bearer " ++ "tok"] ∧
    Headers.buildUpstreamReq ["Content-Type", "Authorization"]
        (fun k =>
          if k = "Content-Type" then ["application/json"]
          else if k = "Authorization" then ["Bearer admin-key"] else [])
        "tok" =
      Headers.buildUpstreamReq ["Content-Type", "Authorization"]
        (fun k =>
          if k = "Content-Type" then ["application/json"]
          else if k = "Authorization" then ["Bearer user-key"] else [])
        "tok" :=
  ⟨(claim_C7_header_rewrite ["Content-Type", "Authorization"] _ "tok").2.2.1
      "Content-Type" (by decide) (by simp) (by simp),
   (claim_C7_header_rewrite ["Content-Type", "Authorization"] _ "tok").1,
   (claim_C7_header_rewrite ["Content-Type", "Authorization"] _ "tok").2.2.2.2
      _ (fun k hk => by simp [hk])⟩
